import Mathlib

/-!
Verification of the Jenkins agent installer and monitor scripts
(src/Jenkins_Agent/Scripts/test.py and
src/Jenkins_Agent/Scripts/Jenkins_agent_manager.py).

Shallow embedding: each Python function relevant to the claims is
translated into an executable Lean definition; external effects
(subprocess calls, file writes, log lines, sleeps) are recorded as
explicit event traces, and raised exceptions as error values.
-/

/-- Python whitespace for str.strip: space, tab, newline, carriage return,
vertical tab (11) and form feed (12). -/
def pyWhitespace (c : Char) : Bool :=
  c == ' ' || c == '\t' || c == '\n' || c == '\r' || c.toNat == 11 || c.toNat == 12

/-- Python str.strip() on a list of characters: drop whitespace from both
ends (used on the systemctl is-active output, test.py line 176). -/
def pyStrip (s : List Char) : List Char :=
  ((s.dropWhile pyWhitespace).reverse.dropWhile pyWhitespace).reverse

/-- Whether the needle begins the haystack, character by character. -/
def beginsWithChars : List Char → List Char → Bool
  | [], _ => true
  | _ :: _, [] => false
  | a :: as, b :: bs => a == b && beginsWithChars as bs

/-- Python substring containment, the `in` operator on str (used on the
sc.exe query output, test.py line 180). -/
def hasSubChars (needle : List Char) : List Char → Bool
  | [] => beginsWithChars needle []
  | c :: rest => beginsWithChars needle (c :: rest) || hasSubChars needle rest

theorem beginsWithChars_iff (n : List Char) : ∀ h : List Char,
    beginsWithChars n h = true ↔ ∃ t, h = n ++ t := by
  induction n with
  | nil => intro h; simp [beginsWithChars]
  | cons a as ih =>
    intro h
    cases h with
    | nil =>
      simp only [beginsWithChars, List.cons_append]
      constructor
      · intro hfalse; cases hfalse
      · rintro ⟨t, ht⟩; cases ht
    | cons b bs =>
      simp only [beginsWithChars, Bool.and_eq_true, beq_iff_eq, ih, List.cons_append]
      constructor
      · rintro ⟨rfl, t, rfl⟩; exact ⟨t, rfl⟩
      · rintro ⟨t, ht⟩
        injection ht with h1 h2
        exact ⟨h1.symm, t, h2⟩

theorem hasSubChars_iff (n : List Char) : ∀ h : List Char,
    hasSubChars n h = true ↔ ∃ p q, h = p ++ n ++ q := by
  intro h
  induction h with
  | nil =>
    rw [show hasSubChars n [] = beginsWithChars n [] from rfl, beginsWithChars_iff]
    constructor
    · rintro ⟨t, ht⟩
      exact ⟨[], t, by simpa using ht⟩
    · rintro ⟨p, q, hpq⟩
      rcases List.append_eq_nil.mp hpq.symm with ⟨h1, h2⟩
      rcases List.append_eq_nil.mp h1 with ⟨_, h3⟩
      exact ⟨[], by simp [h3]⟩
  | cons c rest ih =>
    simp only [hasSubChars, Bool.or_eq_true, beginsWithChars_iff n, ih]
    constructor
    · rintro (⟨t, ht⟩ | ⟨p, q, hpq⟩)
      · exact ⟨[], t, by simpa using ht⟩
      · exact ⟨c :: p, q, by simp [hpq]⟩
    · rintro ⟨p, q, hpq⟩
      cases p with
      | nil => exact Or.inl ⟨q, by simpa using hpq⟩
      | cons x xs =>
        right
        rw [List.cons_append, List.cons_append] at hpq
        injection hpq with h1 h2
        exact ⟨xs, q, h2⟩

theorem dropWhile_all_append (p : Char → Bool) (l1 l2 : List Char)
    (h : ∀ c ∈ l1, p c = true) :
    (l1 ++ l2).dropWhile p = l2.dropWhile p := by
  induction l1 with
  | nil => rfl
  | cons a as ih =>
    simp only [List.cons_append, List.dropWhile_cons, h a (by simp)]
    exact ih (fun c hc => h c (by simp [hc]))

theorem dropWhile_head_neg (p : Char → Bool) (a : Char) (l : List Char)
    (h : p a = false) : (a :: l).dropWhile p = a :: l := by
  simp [List.dropWhile_cons, h]

/-- Every list splits as leading whitespace, its strip, and trailing
whitespace. -/
theorem pyStrip_decomp (s : List Char) :
    ∃ p q, s = p ++ pyStrip s ++ q ∧
      (∀ c ∈ p, pyWhitespace c = true) ∧ (∀ c ∈ q, pyWhitespace c = true) := by
  refine ⟨s.takeWhile pyWhitespace,
    ((s.dropWhile pyWhitespace).reverse.takeWhile pyWhitespace).reverse, ?_, ?_, ?_⟩
  · conv_lhs => rw [← List.takeWhile_append_dropWhile (p := pyWhitespace) (l := s)]
    rw [List.append_assoc]
    congr 1
    conv_lhs => rw [← List.reverse_reverse (s.dropWhile pyWhitespace)]
    conv_lhs =>
      rw [← List.takeWhile_append_dropWhile (p := pyWhitespace)
        (l := (s.dropWhile pyWhitespace).reverse)]
    rw [List.reverse_append]
    rfl
  · intro c hc
    exact List.mem_takeWhile_imp hc
  · intro c hc
    rw [List.mem_reverse] at hc
    exact List.mem_takeWhile_imp hc

theorem dropWhile_append_eq (p : Char → Bool) (t q : List Char)
    (h : t.dropWhile p = t) (hne : t ≠ []) :
    (t ++ q).dropWhile p = t ++ q := by
  obtain ⟨a, t1, rfl⟩ := List.exists_cons_of_ne_nil hne
  have ha : p a = false := by
    have hx := (List.dropWhile_eq_self_iff.mp h) (by simp)
    simpa [List.get_cons_zero] using hx
  simp [List.cons_append, List.dropWhile_cons, ha]

/-- A nonempty token with non-whitespace first and last characters,
padded by whitespace on both sides, strips back to itself. -/
theorem pyStrip_pad (t p q : List Char) (hne : t ≠ [])
    (hp : ∀ c ∈ p, pyWhitespace c = true) (hq : ∀ c ∈ q, pyWhitespace c = true)
    (h1 : t.dropWhile pyWhitespace = t) (h2 : t.reverse.dropWhile pyWhitespace = t.reverse) :
    pyStrip (p ++ t ++ q) = t := by
  unfold pyStrip
  rw [List.append_assoc, dropWhile_all_append _ _ _ hp,
    dropWhile_append_eq _ _ _ h1 hne, List.reverse_append,
    dropWhile_all_append _ _ _ (fun c hc => hq c (List.mem_reverse.mp hc)),
    h2, List.reverse_reverse]

/-- Stripping to the exact token "active" is the same as being that token
padded by whitespace on both sides. -/
theorem pyStrip_eq_active_iff (out : List Char) :
    pyStrip out = "active".data ↔
      ∃ p q, out = p ++ "active".data ++ q ∧
        (∀ c ∈ p, pyWhitespace c = true) ∧ (∀ c ∈ q, pyWhitespace c = true) := by
  constructor
  · intro h
    obtain ⟨p, q, hdec, hp, hq⟩ := pyStrip_decomp out
    exact ⟨p, q, by rw [← h]; exact hdec, hp, hq⟩
  · rintro ⟨p, q, rfl, hp, hq⟩
    exact pyStrip_pad _ _ _ (by decide) hp hq (by decide) (by decide)

/-- The host platform as reported by platform.system() in test.py (the
manager script compares the lowercased value); a platform other than Linux
and Windows is carried with its raw name. -/
inductive Plat
  | linux
  | windows
  | other (name : String)
deriving DecidableEq

/-- The platform.system() string, as interpolated into messages of
test.py. -/
def Plat.sysName : Plat → String
  | .linux => "Linux"
  | .windows => "Windows"
  | .other n => n

/-- Status mapping of monitor_service (test.py lines 172-180): on Linux
the stripped stdout of systemctl is-active must equal "active"; on Windows
the sc.exe query output must contain "RUNNING"; on any other platform the
is_active flag keeps its initial value False. -/
def isActiveOutput (plat : Plat) (out : List Char) : Bool :=
  match plat with
  | .linux => pyStrip out == "active".data
  | .windows => hasSubChars "RUNNING".data out
  | .other _ => false

/-- Observable effects of one iteration of the monitor loop body
(test.py lines 170-188): how many alert emails were sent, whether the
except branch logged an unexpected error, and whether an exception escaped
the body (it cannot: the body is wrapped in try/except Exception). -/
structure TickEffect where
  alerts : Nat
  errorLogged : Bool
  crashed : Bool
deriving DecidableEq

/-- One monitor tick: the status query either returns raw output or raises
(run_command_with_retry exhausting its retries). A raised query jumps to
the except branch, skipping the alert logic; an observed output is mapped
by isActiveOutput, and any non-Active result sends one alert. -/
def monitorTick (plat : Plat) (q : Except String (List Char)) : TickEffect :=
  match q with
  | .error _ => { alerts := 0, errorLogged := true, crashed := false }
  | .ok out =>
    if isActiveOutput plat out then { alerts := 0, errorLogged := false, crashed := false }
    else { alerts := 1, errorLogged := false, crashed := false }

/-- The monitor loop over a finite schedule of query outcomes: every tick
is processed (the loop never terminates on a tick failure; only the
process-level shutdown signal stops it). -/
def monitorRun (plat : Plat) (qs : List (Except String (List Char))) : List TickEffect :=
  qs.map (monitorTick plat)

/-- An observed service status, used to phrase claims about sequences of
observations. -/
inductive AgStatus
  | active
  | inactive
deriving DecidableEq

/-- The raw query output that observes as the given status on Linux. -/
def AgStatus.rawOutput : AgStatus → List Char
  | .active => "active".data
  | .inactive => "inactive".data

/-- Total number of alert emails the monitor sends over an observed status
sequence. -/
def monitorAlertTotal (plat : Plat) (obs : List AgStatus) : Nat :=
  ((monitorRun plat (obs.map fun s => Except.ok s.rawOutput)).map TickEffect.alerts).sum

/-- Events of run_command_with_retry (test.py lines 89-99), in order: the
subprocess attempt itself, the logging.error line of a failed attempt
(which interpolates the CalledProcessError, whose text includes the
command), the sleep, the final logging.critical line (which interpolates
the command), the raise, and a normal return. -/
inductive REv
  | execAttempt (i : Nat)
  | logAttemptErr (ctx : String) (cmd : List String) (attempt retries : Nat)
  | sleepDelay (d : Nat)
  | logCritical (retries : Nat) (cmd : List String)
  | raised (ctx : String)
  | returned (i : Nat)
deriving DecidableEq

/-- The retry loop of run_command_with_retry, over the remaining attempt
count and the current attempt index; the outcome of each subprocess run is
an input (fails i is whether attempt i exits non-zero). On a failure the
code logs, sleeps the delay, and continues; after the range is exhausted
it logs at critical level and raises RuntimeError(error_message). -/
def retryAux (cmd : List String) (fails : Nat → Bool) (ctx : String) (retries delay : Nat) :
    Nat → Nat → List REv
  | 0, _ => [REv.logCritical retries cmd, REv.raised ctx]
  | k + 1, i =>
    if fails i then
      REv.execAttempt i :: REv.logAttemptErr ctx cmd (i + 1) retries :: REv.sleepDelay delay ::
        retryAux cmd fails ctx retries delay k (i + 1)
    else
      [REv.execAttempt i, REv.returned i]

/-- run_command_with_retry as an event trace; the source defaults are
retries = 3 and delay = 5, both keyword parameters of the function. -/
def runCommandWithRetry (cmd : List String) (fails : Nat → Bool) (ctx : String)
    (retries delay : Nat) : List REv :=
  retryAux cmd fails ctx retries delay retries 0

def REv.isExec : REv → Bool
  | .execAttempt _ => true
  | _ => false

def REv.isSleep : REv → Bool
  | .sleepDelay _ => true
  | _ => false

def REv.isRaise : REv → Bool
  | .raised _ => true
  | _ => false

/-- Whether the rendered text of a log event mentions the given secret:
the attempt-error line interpolates the CalledProcessError, whose str
includes the full command, and the critical line interpolates the command
list itself (test.py lines 96 and 98). -/
def REv.mentionsSecret (secret : String) : REv → Bool
  | .logAttemptErr _ cmd _ _ => cmd.any fun tok => hasSubChars secret.data tok.data
  | .logCritical _ cmd => cmd.any fun tok => hasSubChars secret.data tok.data
  | _ => false

/-- Command list built by install_service_windows (test.py lines 139-144):
the binPath token embeds the agent secret; os.path.join and os.getcwd are
rendered with a slash separator. -/
def testWinCreateCmd (cwd jarPath url name secret workdir : String) : List String :=
  ["sc.exe", "create", name, "binPath=",
   "\"java -jar " ++ cwd ++ "/" ++ jarPath ++ " -jnlpUrl " ++ url ++ "/computer/" ++ name ++
     "/slave-agent.jnlp -secret " ++ secret ++ " -workDir " ++ workdir ++ "\"",
   "DisplayName=", "Jenkins Agent - " ++ name, "start=", "auto"]

/-- Log lines of send_alert_email (test.py lines 150-165): the
announcement line, then either the success line or, when the SMTP
transport block throws, the error line; the try/except Exception around
the transport swallows every failure. -/
def sendAlertLogs (subject : String) (transport : Except String Unit) : List String :=
  ("Sending alert email with subject: " ++ subject) ::
    (match transport with
     | Except.ok _ => ["Alert email sent successfully."]
     | Except.error e => ["Failed to send alert email: " ++ e])

/-- send_alert_email as a fallible computation, the shape in which a
failure could propagate to the caller; the translation of its try/except
always returns Except.ok together with the log lines produced. -/
def sendAlertEmail (subject : String) (transport : Except String Unit) :
    Except String (List String) :=
  Except.ok (sendAlertLogs subject transport)

/-- Names bound at module scope of test.py by its import statements
(lines 1-13); sys is not among them, although signal_handler (line 49)
calls sys.exit(0). -/
def testModuleImports : List String :=
  ["os", "platform", "subprocess", "time", "psutil", "json", "smtplib", "logging",
   "MIMEText", "load_dotenv", "Path", "signal", "threading"]

/-- Outcome of running the shutdown handler. -/
inductive HandlerOutcome
  | exitZero
  | nameError (missing : String)
deriving DecidableEq

/-- signal_handler (test.py lines 46-49): it logs, then evaluates
sys.exit(0); evaluating the name sys raises NameError unless sys is bound
at module scope by an import. -/
def signalHandlerRun (imports : List String) : HandlerOutcome :=
  if imports.contains "sys" then HandlerOutcome.exitZero
  else HandlerOutcome.nameError "sys"

/-- Configuration fields of config.json used by the two scripts: the
server URL and the per-platform agent name and work directory. -/
structure MgrConfig where
  serverUrl : String
  linuxName : String
  linuxWorkdir : String
  windowsName : String
  windowsWorkdir : String
deriving DecidableEq

/-- Filesystem and subprocess actions of Jenkins_agent_manager.py, in
source order: directory creation, the os.chmod call, a subprocess command,
a file write, and an error log line. -/
inductive MAct
  | makeDirs (path : String)
  | chmodDir (path : String)
  | runCmd (cmd : List String)
  | writeFile (path content : String)
  | logError (msg : String)
deriving DecidableEq

/-- The ExecStart line of the unit-file template in
configure_linux_service (Jenkins_agent_manager.py line 156): the only line
of the template that interpolates configuration values. -/
def linuxExecStartLine (jarPath : String) (cfg : MgrConfig) (secret : String) : String :=
  "    ExecStart=/usr/bin/java -jar " ++ jarPath ++ " -url " ++ cfg.serverUrl ++
    " -secret " ++ secret ++ " -name \"" ++ cfg.linuxName ++ "\" -workDir \"" ++
    cfg.linuxWorkdir ++ "\""

/-- Template lines before the ExecStart line (Jenkins_agent_manager.py
lines 150-155): constants, independent of the configuration. -/
def linuxUnitHead : List String :=
  ["", "    [Unit]", "    Description=Jenkins Agent", "    After=network.target", "",
   "    [Service]"]

/-- Template lines after the ExecStart line (Jenkins_agent_manager.py
lines 157-162): constants; in particular the service user is the fixed
line User=gopal. -/
def linuxUnitTail : List String :=
  ["    User=gopal", "    Restart=always", "", "    [Install]",
   "    WantedBy=multi-user.target", "    "]

/-- The full unit-file template of configure_linux_service, as its lines
(the f-string of Jenkins_agent_manager.py lines 150-162 split at the
newlines). -/
def linuxServiceLines (jarPath : String) (cfg : MgrConfig) (secret : String) : List String :=
  ["", "    [Unit]", "    Description=Jenkins Agent", "    After=network.target", "",
   "    [Service]",
   linuxExecStartLine jarPath cfg secret,
   "    User=gopal", "    Restart=always", "", "    [Install]",
   "    WantedBy=multi-user.target", "    "]

/-- The unit-file content written by configure_linux_service. -/
def linuxServiceContent (jarPath : String) (cfg : MgrConfig) (secret : String) : String :=
  String.intercalate "\n" (linuxServiceLines jarPath cfg secret)

/-- Python truthiness of an optional environment string: os.getenv returns
None when the variable is unset, and the scripts guard with `if not X`,
which also treats the empty string as missing. -/
def falsyEnv : Option String → Bool
  | none => true
  | some s => s == ""

/-- configure_linux_service (Jenkins_agent_manager.py lines 142-188) as
the list of actions it performs together with the error it raises, if
any. The secret check (lines 145-148) comes before every action; with the
secret present, the actions are the temporary permission grant, the unit
file write to the fixed path, the permission revert, and the three
systemctl commands on the fixed unit name jenkins-agent. -/
def configureLinuxService (jarPath : String) (cfg : MgrConfig) (secret : Option String) :
    List MAct × Option String :=
  match secret with
  | none =>
    ([MAct.logError "LINUX_AGENT_SECRET is not set in the .env file."],
     some "LINUX_AGENT_SECRET is required in the .env file")
  | some s =>
    if s = "" then
      ([MAct.logError "LINUX_AGENT_SECRET is not set in the .env file."],
       some "LINUX_AGENT_SECRET is required in the .env file")
    else
      ([MAct.runCmd ["sudo", "chmod", "o+w", "/etc/systemd/system/"],
        MAct.writeFile "/etc/systemd/system/jenkins-agent.service"
          (linuxServiceContent jarPath cfg s),
        MAct.runCmd ["sudo", "chmod", "o-w", "/etc/systemd/system/"],
        MAct.runCmd ["sudo", "systemctl", "daemon-reload"],
        MAct.runCmd ["sudo", "systemctl", "enable", "jenkins-agent"],
        MAct.runCmd ["sudo", "systemctl", "start", "jenkins-agent"]], none)

/-- The sc.exe create command of configure_windows_service
(Jenkins_agent_manager.py lines 209-213); path joins rendered with a
slash. -/
def mgrWinCreateCmd (javaHome jarPath : String) (cfg : MgrConfig) (secret : String) :
    List String :=
  ["sc.exe", "create", cfg.windowsName,
   "binPath= \"" ++ javaHome ++ "/bin/java.exe -jar " ++ jarPath ++ " -url " ++
     cfg.serverUrl ++ " -secret " ++ secret ++ " -name " ++ cfg.windowsName ++
     " -workDir " ++ cfg.windowsWorkdir ++ "\"",
   "start=", "auto"]

/-- configure_windows_service (Jenkins_agent_manager.py lines 191-220):
the secret check comes before every action; with the secret present, the
create and start commands are issued. -/
def configureWindowsService (javaHome jarPath : String) (cfg : MgrConfig)
    (secret : Option String) : List MAct × Option String :=
  match secret with
  | none =>
    ([MAct.logError "WINDOWS_AGENT_SECRET is not set in the .env file."],
     some "WINDOWS_AGENT_SECRET is required in the .env file")
  | some s =>
    if s = "" then
      ([MAct.logError "WINDOWS_AGENT_SECRET is not set in the .env file."],
       some "WINDOWS_AGENT_SECRET is required in the .env file")
    else
      ([MAct.runCmd (mgrWinCreateCmd javaHome jarPath cfg s),
        MAct.runCmd ["sc.exe", "start", cfg.windowsName]], none)

/-- download_jenkins_agent (Jenkins_agent_manager.py lines 112-139):
directory creation when missing, the chmod on non-Windows platforms, and
the curl download command, in source order; path joins rendered with a
slash, and the home directory and the directory-existence test are
inputs. Returns the actions and the jar path. -/
def downloadJenkinsAgent (plat : Plat) (cfg : MgrConfig) (home : String) (dirMissing : Bool) :
    List MAct × String :=
  let jarPath := if plat = Plat.windows then "D:/jenkins/agent/agent.jar"
    else home ++ "/jenkins/agent.jar"
  let jenkinsDir := if plat = Plat.windows then "D:/jenkins/agent" else home ++ "/jenkins"
  ((if dirMissing then [MAct.makeDirs jenkinsDir] else []) ++
    (if plat = Plat.windows then [] else [MAct.chmodDir jenkinsDir]) ++
    [MAct.runCmd ["curl", "-o", jarPath, cfg.serverUrl ++ "/jnlpJars/agent.jar"]],
   jarPath)

/-- The secrets and credentials read from the environment by the two
scripts. -/
structure EnvSecrets where
  linuxSecret : Option String
  windowsSecret : Option String
  smtpPassword : Option String
deriving DecidableEq

/-- main of Jenkins_agent_manager.py (lines 223-243), from the point after
logging setup and configuration loading (which mutate neither the
filesystem paths of the agent nor the service registry): the download runs
first, then the platform dispatch; an unsupported platform only logs an
error and main returns normally. -/
def managerMain (plat : Plat) (cfg : MgrConfig) (env : EnvSecrets) (home javaHome : String)
    (dirMissing : Bool) : List MAct × Option String :=
  let dl := downloadJenkinsAgent plat cfg home dirMissing
  match plat with
  | .linux =>
    let c := configureLinuxService dl.2 cfg env.linuxSecret
    (dl.1 ++ c.1, c.2)
  | .windows =>
    let c := configureWindowsService javaHome dl.2 cfg env.windowsSecret
    (dl.1 ++ c.1, c.2)
  | .other _ =>
    (dl.1 ++ [MAct.logError "Unsupported platform. Only Windows and Linux are supported."],
     none)

/-- get_agent_details (test.py lines 66-87): the platform dispatch raises
on an unsupported platform before any secret is read; on Linux and Windows
the platform-specific secret is read from the environment and its absence
(unset or empty) raises before the details are returned. -/
def getAgentDetails (plat : Plat) (cfg : MgrConfig) (env : EnvSecrets) :
    Except String (String × String × String) :=
  match plat with
  | Plat.linux =>
    if falsyEnv env.linuxSecret then
      Except.error ("Agent secret for " ++ Plat.sysName Plat.linux ++ " not found in .env")
    else
      Except.ok (cfg.linuxName, env.linuxSecret.getD "", cfg.linuxWorkdir)
  | Plat.windows =>
    if falsyEnv env.windowsSecret then
      Except.error ("Agent secret for " ++ Plat.sysName Plat.windows ++ " not found in .env")
    else
      Except.ok (cfg.windowsName, env.windowsSecret.getD "", cfg.windowsWorkdir)
  | Plat.other _ =>
    Except.error "Unsupported platform. Only Windows and Linux are supported."

/-- Steps of main in test.py (lines 190-210). -/
inductive TAct
  | downloadJar
  | installLinuxService
  | installWindowsService
  | monitorStart (agentName : String)
deriving DecidableEq

/-- main of test.py (lines 190-210): validate_configuration (which raises
when SMTP_PASSWORD is missing), then get_agent_details, then the download,
the platform-specific install and the monitor loop; an error raised at any
step ends the run with no later step (command outcomes on the success path
are abstracted as succeeding; the platform branch after a successful
get_agent_details cannot be the unsupported one, which already raised). -/
def testMain (plat : Plat) (cfg : MgrConfig) (env : EnvSecrets) :
    List TAct × Option String :=
  if falsyEnv env.smtpPassword then ([], some "Missing SMTP_PASSWORD in .env")
  else
    match getAgentDetails plat cfg env with
    | Except.error e => ([], some e)
    | Except.ok d =>
      match plat with
      | Plat.linux =>
        ([TAct.downloadJar, TAct.installLinuxService, TAct.monitorStart d.1], none)
      | Plat.windows =>
        ([TAct.downloadJar, TAct.installWindowsService, TAct.monitorStart d.1], none)
      | Plat.other _ => ([TAct.downloadJar], none)

theorem retryAux_allFail_counts (cmd : List String) (fails : Nat → Bool) (ctx : String)
    (retries delay : Nat) (h : ∀ i, fails i = true) : ∀ k i,
    (retryAux cmd fails ctx retries delay k i).countP REv.isExec = k ∧
    (retryAux cmd fails ctx retries delay k i).countP REv.isSleep = k ∧
    (retryAux cmd fails ctx retries delay k i).countP REv.isRaise = 1 ∧
    REv.raised ctx ∈ retryAux cmd fails ctx retries delay k i := by
  intro k
  induction k with
  | zero =>
    intro i
    refine ⟨?_, ?_, ?_, ?_⟩ <;>
      simp [retryAux, REv.isExec, REv.isSleep, REv.isRaise, List.countP_cons]
  | succ n ih =>
    intro i
    obtain ⟨h1, h2, h3, h4⟩ := ih (i + 1)
    refine ⟨?_, ?_, ?_, ?_⟩ <;>
      simp [retryAux, h i, REv.isExec, REv.isSleep, REv.isRaise, List.countP_cons,
        h1, h2, h3, h4]

/-- C1: counterexample. For the observed status sequence
[Active, Inactive, Inactive, Inactive, Active, Inactive] the monitor loop
of test.py sends 4 alerts, not 2: monitor_service keeps no alerted flag
and alerts on every Inactive tick. -/
theorem C1_counterexample :
    monitorAlertTotal Plat.linux
      [AgStatus.active, AgStatus.inactive, AgStatus.inactive, AgStatus.inactive,
       AgStatus.active, AgStatus.inactive] = 4 ∧
    ¬ (monitorAlertTotal Plat.linux
      [AgStatus.active, AgStatus.inactive, AgStatus.inactive, AgStatus.inactive,
       AgStatus.active, AgStatus.inactive] = 2) := by
  constructor <;> decide

/-- C1 (amended): the health monitor keeps no alerted-flag state and fires
one alert at every Inactive observation: over any observed status
sequence, the number of alerts equals the number of Inactive observations
(so the sequence of the claim yields 4 alerts, one per Inactive element,
rather than 2), and an Active observation resets nothing because there is
no flag to reset. -/
theorem C1_alert_per_inactive_tick (obs : List AgStatus) :
    monitorAlertTotal Plat.linux obs = obs.countP (fun s => s == AgStatus.inactive) := by
  induction obs with
  | nil => rfl
  | cons s rest ih =>
    simp only [monitorAlertTotal, monitorRun, List.map_cons, List.sum_cons,
      List.countP_cons] at ih ⊢
    cases s
    · rw [show (monitorTick Plat.linux (Except.ok AgStatus.active.rawOutput)).alerts = 0
        from by decide, ih]
      simp
    · rw [show (monitorTick Plat.linux (Except.ok AgStatus.inactive.rawOutput)).alerts = 1
        from by decide, ih]
      simp [Nat.add_comm]

/-- C2: counterexample. With every attempt failing and the default
parameters retries = 3, delay = 5, run_command_with_retry sleeps 3 times,
not 2: the sleep follows every failed attempt, including the last one,
because time.sleep(delay) sits inside the except block before the loop
exits. -/
theorem C2_counterexample :
    (runCommandWithRetry ["systemctl", "daemon-reload"] (fun _ => true)
      "Failed to reload systemd configuration" 3 5).countP REv.isSleep = 3 ∧
    ¬ ((runCommandWithRetry ["systemctl", "daemon-reload"] (fun _ => true)
      "Failed to reload systemd configuration" 3 5).countP REv.isSleep = 2) := by
  constructor <;> decide

/-- C2 (amended): for every command that fails on all attempts,
run_command_with_retry makes exactly `retries` attempts and raises a
single error whose message is the supplied error context, with `retries`
and `delay` both parameters of the function (defaults 3 and 5); however it
sleeps `delay` after every failed attempt, including the last one, so
`retries` sleeps occur in total rather than only between consecutive
attempts. -/
theorem C2_retry_exhaustion (cmd : List String) (fails : Nat → Bool) (ctx : String)
    (retries delay : Nat) (h : ∀ i, fails i = true) :
    (runCommandWithRetry cmd fails ctx retries delay).countP REv.isExec = retries ∧
    (runCommandWithRetry cmd fails ctx retries delay).countP REv.isSleep = retries ∧
    (runCommandWithRetry cmd fails ctx retries delay).countP REv.isRaise = 1 ∧
    REv.raised ctx ∈ runCommandWithRetry cmd fails ctx retries delay :=
  retryAux_allFail_counts cmd fails ctx retries delay h retries 0

theorem C2_retry_exhaustion_witness :
    (runCommandWithRetry ["systemctl", "daemon-reload"] (fun _ => true)
      "Failed to reload systemd configuration" 3 5).countP REv.isExec = 3 ∧
    (runCommandWithRetry ["systemctl", "daemon-reload"] (fun _ => true)
      "Failed to reload systemd configuration" 3 5).countP REv.isSleep = 3 ∧
    (runCommandWithRetry ["systemctl", "daemon-reload"] (fun _ => true)
      "Failed to reload systemd configuration" 3 5).countP REv.isRaise = 1 ∧
    REv.raised "Failed to reload systemd configuration" ∈
      runCommandWithRetry ["systemctl", "daemon-reload"] (fun _ => true)
        "Failed to reload systemd configuration" 3 5 :=
  C2_retry_exhaustion ["systemctl", "daemon-reload"] (fun _ => true)
    "Failed to reload systemd configuration" 3 5 (fun _ => rfl)

/-- C3: with the platform-specific agent secret absent from the
environment (unset or empty, both falsy in the source guards),
installation fails with a configuration error and performs no mutation:
configure_linux_service and configure_windows_service raise after only a
log line, writing no service definition file and issuing no command, and
test.py's main raises out of get_agent_details before the download and
install steps, on both the Linux and the Windows path. -/
theorem C3_no_mutation_without_secret (jarPath javaHome : String) (cfg : MgrConfig)
    (ws ls sp : Option String) (secret : Option String)
    (hsec : falsyEnv secret = true) (hsp : falsyEnv sp = false) :
    configureLinuxService jarPath cfg secret =
      ([MAct.logError "LINUX_AGENT_SECRET is not set in the .env file."],
       some "LINUX_AGENT_SECRET is required in the .env file") ∧
    configureWindowsService javaHome jarPath cfg secret =
      ([MAct.logError "WINDOWS_AGENT_SECRET is not set in the .env file."],
       some "WINDOWS_AGENT_SECRET is required in the .env file") ∧
    testMain Plat.linux cfg ⟨secret, ws, sp⟩ =
      ([], some "Agent secret for Linux not found in .env") ∧
    testMain Plat.windows cfg ⟨ls, secret, sp⟩ =
      ([], some "Agent secret for Windows not found in .env") := by
  have hfal : secret = none ∨ secret = some "" := by
    match secret with
    | none => exact Or.inl rfl
    | some s =>
      simp only [falsyEnv, beq_iff_eq] at hsec
      exact Or.inr (by rw [hsec])
  rcases hfal with rfl | rfl <;>
    refine ⟨rfl, rfl, ?_, ?_⟩ <;>
      (simp only [testMain]; rw [hsp]; simp [getAgentDetails, falsyEnv, Plat.sysName])

theorem C3_no_mutation_without_secret_witness :
    configureLinuxService "agent.jar" ⟨"http://jenkins", "agent-1", "/var/jenkins",
        "agent-w", "C:/jenkins"⟩ none =
      ([MAct.logError "LINUX_AGENT_SECRET is not set in the .env file."],
       some "LINUX_AGENT_SECRET is required in the .env file") ∧
    configureWindowsService "/opt/java" "agent.jar" ⟨"http://jenkins", "agent-1",
        "/var/jenkins", "agent-w", "C:/jenkins"⟩ none =
      ([MAct.logError "WINDOWS_AGENT_SECRET is not set in the .env file."],
       some "WINDOWS_AGENT_SECRET is required in the .env file") ∧
    testMain Plat.linux ⟨"http://jenkins", "agent-1", "/var/jenkins", "agent-w",
        "C:/jenkins"⟩ ⟨none, some "w", some "pw"⟩ =
      ([], some "Agent secret for Linux not found in .env") ∧
    testMain Plat.windows ⟨"http://jenkins", "agent-1", "/var/jenkins", "agent-w",
        "C:/jenkins"⟩ ⟨some "l", none, some "pw"⟩ =
      ([], some "Agent secret for Windows not found in .env") :=
  C3_no_mutation_without_secret "agent.jar" "/opt/java"
    ⟨"http://jenkins", "agent-1", "/var/jenkins", "agent-w", "C:/jenkins"⟩
    (some "w") (some "l") (some "pw") none rfl rfl

/-- C4: counterexample. A tick whose status query raises (the retry
runner exhausting its retries) sends no alert, while a tick observing
Inactive sends one: the exception jumps to the except branch and skips the
alert logic, so a query failure does not drive the same alerting behaviour
as an observed Inactive status. -/
theorem C4_counterexample :
    (monitorTick Plat.linux (Except.error "CalledProcessError")).alerts = 0 ∧
    (monitorTick Plat.linux (Except.ok "inactive".data)).alerts = 1 ∧
    ¬ ((monitorTick Plat.linux (Except.error "CalledProcessError")).alerts =
       (monitorTick Plat.linux (Except.ok "inactive".data)).alerts) := by
  refine ⟨rfl, by decide, by decide⟩

/-- C4 (amended): a status-query failure on a tick is logged at error
level and never terminates or crashes the loop, which proceeds to process
every tick of its schedule; however the failing tick sends no alert (the
exception bypasses the alert logic), so it does not behave like an
observed Inactive status. -/
theorem C4_query_failure_absorbed (plat : Plat) (e : String)
    (qs : List (Except String (List Char))) :
    monitorTick plat (Except.error e) =
      { alerts := 0, errorLogged := true, crashed := false } ∧
    (monitorRun plat qs).length = qs.length ∧
    (∀ t ∈ monitorRun plat qs, t.crashed = false) := by
  refine ⟨rfl, by simp [monitorRun], ?_⟩
  intro t ht
  simp only [monitorRun, List.mem_map] at ht
  obtain ⟨q, _, rfl⟩ := ht
  cases q with
  | error _ => rfl
  | ok out =>
    unfold monitorTick
    split
    · rfl
    · split <;> rfl

/-- C5: send_alert_email never propagates a failure to its caller: for
every transport behaviour it returns normally together with its log lines,
and whenever the transport throws, a log line records the failure. -/
theorem C5_send_alert_never_raises (subject : String) (transport : Except String Unit) :
    sendAlertEmail subject transport = Except.ok (sendAlertLogs subject transport) ∧
    (∀ e, transport = Except.error e →
      ("Failed to send alert email: " ++ e) ∈ sendAlertLogs subject transport) := by
  refine ⟨rfl, ?_⟩
  rintro e rfl
  simp [sendAlertLogs]

/-- C6: counterexample. On the unsupported platform Darwin the installer
script's main creates the jenkins directory and issues the curl download
command: mutation happens before the unsupported-platform error is
reported. -/
theorem C6_counterexample :
    MAct.makeDirs "/home/u/jenkins" ∈
      (managerMain (Plat.other "Darwin") ⟨"http://jenkins", "agent-1", "/var/jenkins",
        "agent-w", "C:/jenkins"⟩ ⟨some "ls", some "ws", some "pw"⟩ "/home/u" "/opt/java"
        true).1 ∧
    MAct.runCmd ["curl", "-o", "/home/u/jenkins/agent.jar",
        "http://jenkins/jnlpJars/agent.jar"] ∈
      (managerMain (Plat.other "Darwin") ⟨"http://jenkins", "agent-1", "/var/jenkins",
        "agent-w", "C:/jenkins"⟩ ⟨some "ls", some "ws", some "pw"⟩ "/home/u" "/opt/java"
        true).1 := by
  constructor <;> decide

/-- C6 (amended): on a platform other than Linux and Windows, the monitor
script's main fails fast in get_agent_details with the
unsupported-platform error and performs no action; the installer script's
main, however, creates the agent directory and issues the curl download
command before reporting the unsupported-platform error, after which it
writes no service file and issues no further command (the only command in
its trace is the download), and it returns normally instead of failing. -/
theorem C6_unsupported_platform (name home javaHome : String) (cfg : MgrConfig)
    (env : EnvSecrets) (dirMissing : Bool) (hsp : falsyEnv env.smtpPassword = false) :
    testMain (Plat.other name) cfg env =
      ([], some "Unsupported platform. Only Windows and Linux are supported.") ∧
    (managerMain (Plat.other name) cfg env home javaHome dirMissing).2 = none ∧
    MAct.logError "Unsupported platform. Only Windows and Linux are supported."
      ∈ (managerMain (Plat.other name) cfg env home javaHome dirMissing).1 ∧
    MAct.runCmd ["curl", "-o", home ++ "/jenkins/agent.jar",
        cfg.serverUrl ++ "/jnlpJars/agent.jar"]
      ∈ (managerMain (Plat.other name) cfg env home javaHome dirMissing).1 ∧
    (∀ p c, MAct.writeFile p c ∉
      (managerMain (Plat.other name) cfg env home javaHome dirMissing).1) ∧
    (∀ c, MAct.runCmd c ∈ (managerMain (Plat.other name) cfg env home javaHome dirMissing).1 →
      c = ["curl", "-o", home ++ "/jenkins/agent.jar",
        cfg.serverUrl ++ "/jnlpJars/agent.jar"]) := by
  constructor
  · simp only [testMain]
    rw [hsp]
    simp [getAgentDetails]
  · refine ⟨rfl, ?_, ?_, ?_, ?_⟩ <;>
      cases dirMissing <;>
        simp [managerMain, downloadJenkinsAgent]

theorem C6_unsupported_platform_witness :
    testMain (Plat.other "Darwin") ⟨"http://jenkins", "agent-1", "/var/jenkins",
        "agent-w", "C:/jenkins"⟩ ⟨some "ls", some "ws", some "pw"⟩ =
      ([], some "Unsupported platform. Only Windows and Linux are supported.") ∧
    (managerMain (Plat.other "Darwin") ⟨"http://jenkins", "agent-1", "/var/jenkins",
        "agent-w", "C:/jenkins"⟩ ⟨some "ls", some "ws", some "pw"⟩ "/home/u" "/opt/java"
        false).2 = none ∧
    MAct.logError "Unsupported platform. Only Windows and Linux are supported."
      ∈ (managerMain (Plat.other "Darwin") ⟨"http://jenkins", "agent-1", "/var/jenkins",
        "agent-w", "C:/jenkins"⟩ ⟨some "ls", some "ws", some "pw"⟩ "/home/u" "/opt/java"
        false).1 ∧
    MAct.runCmd ["curl", "-o", "/home/u" ++ "/jenkins/agent.jar",
        "http://jenkins" ++ "/jnlpJars/agent.jar"]
      ∈ (managerMain (Plat.other "Darwin") ⟨"http://jenkins", "agent-1", "/var/jenkins",
        "agent-w", "C:/jenkins"⟩ ⟨some "ls", some "ws", some "pw"⟩ "/home/u" "/opt/java"
        false).1 ∧
    (∀ p c, MAct.writeFile p c ∉
      (managerMain (Plat.other "Darwin") ⟨"http://jenkins", "agent-1", "/var/jenkins",
        "agent-w", "C:/jenkins"⟩ ⟨some "ls", some "ws", some "pw"⟩ "/home/u" "/opt/java"
        false).1) ∧
    (∀ c, MAct.runCmd c ∈ (managerMain (Plat.other "Darwin") ⟨"http://jenkins", "agent-1",
        "/var/jenkins", "agent-w", "C:/jenkins"⟩ ⟨some "ls", some "ws", some "pw"⟩
        "/home/u" "/opt/java" false).1 →
      c = ["curl", "-o", "/home/u" ++ "/jenkins/agent.jar",
        "http://jenkins" ++ "/jnlpJars/agent.jar"]) :=
  C6_unsupported_platform "Darwin" "/home/u" "/opt/java"
    ⟨"http://jenkins", "agent-1", "/var/jenkins", "agent-w", "C:/jenkins"⟩
    ⟨some "ls", some "ws", some "pw"⟩ false rfl

/-- C7: test.py cannot exit with code 0 on a shutdown signal:
signal_handler calls sys.exit(0) but the module never imports sys, so
evaluating the handler raises NameError instead of performing the clean
exit (and when that NameError lands inside the monitor tick's try block,
the except Exception there swallows it and the loop continues). -/
theorem C7_signal_handler_name_error :
    signalHandlerRun testModuleImports = HandlerOutcome.nameError "sys" ∧
    HandlerOutcome.nameError "sys" ≠ HandlerOutcome.exitZero := by
  constructor <;> decide

/-- C8: the status mapping maps raw output to Active exactly when, on
Linux, the output stripped of surrounding whitespace equals the token
"active" (equivalently, it is that token with whitespace padding on both
sides) and, on Windows, the output contains the token "RUNNING" as a
substring; every other raw output value, and every other platform, maps
to Inactive. -/
theorem C8_status_mapping (out : List Char) :
    (isActiveOutput Plat.linux out = true ↔
      ∃ p q, out = p ++ "active".data ++ q ∧
        (∀ c ∈ p, pyWhitespace c = true) ∧ (∀ c ∈ q, pyWhitespace c = true)) ∧
    (isActiveOutput Plat.windows out = true ↔
      ∃ p q, out = p ++ "RUNNING".data ++ q) ∧
    (∀ s, isActiveOutput (Plat.other s) out = false) := by
  refine ⟨?_, ?_, fun s => rfl⟩
  · rw [show isActiveOutput Plat.linux out = (pyStrip out == "active".data) from rfl,
      beq_iff_eq]
    exact pyStrip_eq_active_iff out
  · rw [show isActiveOutput Plat.windows out = hasSubChars "RUNNING".data out from rfl]
    exact hasSubChars_iff "RUNNING".data out

/-- C9: the agent secret reaches the log output. When the Windows
service-creation command of test.py, whose binPath token embeds the
secret, fails on every attempt, the failed-attempt log lines and the
final critical log line of run_command_with_retry interpolate the
command, so the rendered log mentions the secret; accordingly the
produced log trace changes when only the secret value changes. -/
theorem C9_secret_logged_on_failed_install :
    ((runCommandWithRetry
      (testWinCreateCmd "/work" "agent.jar" "http://jenkins" "agent-1" "tok123" "C:/jx")
      (fun _ => true) "Failed to create Windows service agent-1" 3 5).any
      (REv.mentionsSecret "tok123")) = true ∧
    runCommandWithRetry
        (testWinCreateCmd "/work" "agent.jar" "http://jenkins" "agent-1" "tok123" "C:/jx")
        (fun _ => true) "Failed to create Windows service agent-1" 3 5 ≠
      runCommandWithRetry
        (testWinCreateCmd "/work" "agent.jar" "http://jenkins" "agent-1" "secretB" "C:/jx")
        (fun _ => true) "Failed to create Windows service agent-1" 3 5 := by
  constructor <;> decide

/-- C10: the Linux service identity in the installer script is constant
and independent of configuration: for every configuration the unit file
is written to /etc/systemd/system/jenkins-agent.service, the systemctl
enable and start commands use the fixed name jenkins-agent, every
template line other than the ExecStart line is a fixed constant (in
particular the line User=gopal), and the configured agent name is
interpolated only into the ExecStart line, where it appears as the -name
argument. -/
theorem C10_linux_service_identity (jarPath : String) (cfg : MgrConfig) (s : String)
    (hs : ¬ s = "") :
    configureLinuxService jarPath cfg (some s) =
      ([MAct.runCmd ["sudo", "chmod", "o+w", "/etc/systemd/system/"],
        MAct.writeFile "/etc/systemd/system/jenkins-agent.service"
          (String.intercalate "\n"
            (linuxUnitHead ++ [linuxExecStartLine jarPath cfg s] ++ linuxUnitTail)),
        MAct.runCmd ["sudo", "chmod", "o-w", "/etc/systemd/system/"],
        MAct.runCmd ["sudo", "systemctl", "daemon-reload"],
        MAct.runCmd ["sudo", "systemctl", "enable", "jenkins-agent"],
        MAct.runCmd ["sudo", "systemctl", "start", "jenkins-agent"]], none) ∧
    "    User=gopal" ∈ linuxUnitTail ∧
    hasSubChars ("-name \"" ++ cfg.linuxName ++ "\"").data
      (linuxExecStartLine jarPath cfg s).data = true := by
  refine ⟨?_, by decide, ?_⟩
  · simp [configureLinuxService, hs, linuxServiceContent, linuxServiceLines,
      linuxUnitHead, linuxUnitTail]
  · rw [hasSubChars_iff]
    refine ⟨("    ExecStart=/usr/bin/java -jar " ++ jarPath ++ " -url " ++ cfg.serverUrl ++
      " -secret " ++ s ++ " ").data,
      (" -workDir \"" ++ cfg.linuxWorkdir ++ "\"").data, ?_⟩
    have e1 : (" -name \"" : String).data =
        (" " : String).data ++ ("-name \"" : String).data := by decide
    have e2 : ("\" -workDir \"" : String).data =
        ("\"" : String).data ++ (" -workDir \"" : String).data := by decide
    simp [linuxExecStartLine, String.data_append, List.append_assoc, e1, e2]

theorem C10_linux_service_identity_witness :
    configureLinuxService "agent.jar" ⟨"http://jenkins", "agent-1", "/var/jenkins",
        "agent-w", "C:/jenkins"⟩ (some "tok") =
      ([MAct.runCmd ["sudo", "chmod", "o+w", "/etc/systemd/system/"],
        MAct.writeFile "/etc/systemd/system/jenkins-agent.service"
          (String.intercalate "\n"
            (linuxUnitHead ++ [linuxExecStartLine "agent.jar"
              ⟨"http://jenkins", "agent-1", "/var/jenkins", "agent-w", "C:/jenkins"⟩
              "tok"] ++ linuxUnitTail)),
        MAct.runCmd ["sudo", "chmod", "o-w", "/etc/systemd/system/"],
        MAct.runCmd ["sudo", "systemctl", "daemon-reload"],
        MAct.runCmd ["sudo", "systemctl", "enable", "jenkins-agent"],
        MAct.runCmd ["sudo", "systemctl", "start", "jenkins-agent"]], none) ∧
    "    User=gopal" ∈ linuxUnitTail ∧
    hasSubChars ("-name \"" ++ "agent-1" ++ "\"").data
      (linuxExecStartLine "agent.jar"
        ⟨"http://jenkins", "agent-1", "/var/jenkins", "agent-w", "C:/jenkins"⟩
        "tok").data = true :=
  C10_linux_service_identity "agent.jar"
    ⟨"http://jenkins", "agent-1", "/var/jenkins", "agent-w", "C:/jenkins"⟩ "tok"
    (by decide)
